import Mathlib

/-!
Verification development for the book-scraping pipeline
(crawler.js, errors.js, selectors.js, dataExtractors.js, scrapingUtils.js,
commonUtils.js and the top-level entry module).

The JavaScript sources are shallowly embedded: HTTP transport and HTML
parsing are treated as oracles supplying the values the code reads off the
parsed documents (selector query results), while all control flow, error
raising/catching, string processing (regular-expression matches, URL
resolution, file-name derivation) and list aggregation are modelled
faithfully.  JS exceptions are modelled with `Except JsError`; a rejected
promise is an `Except.error`; `Promise.allSettled` is modelled by `settle`
applied pointwise (its result array is in input order), with a separate
completion-order model `allSettledOrdered` proved order-independent.
-/

/-- Errors a run of the program can raise.  One constructor per error class
of `errors.js`, plus the engine-level `TypeError`/`ReferenceError` and the
transport-level axios rejection, which the code can also surface. -/
inductive JsError where
  | axiosError (message : String)
  | typeError (message : String)
  | referenceError (name : String)
  | noResponse (url : String)
  | unsuccessfulResponse (url : String)
  | fileWrite (path : String)
  | catalogPageCountNotFound
  | bookCategoryNotFound (url : String)
  | bookTitleNotFound (url : String)
  | bookRatingNotFound (url : String)
  | bookDescriptionNotFound (url : String)
  | bookProductInfoNotFound (url : String)
  | bookImageUrlNotFound (url : String)
deriving DecidableEq, Repr

/-- The `message` property of each modelled error, as produced by the
constructors in `errors.js` (used because the code logs `error.message`). -/
def errMessage : JsError → String
  | .axiosError m => m
  | .typeError m => m
  | .referenceError n => n ++ " is not defined"
  | .noResponse url => "No response received for the request " ++ url
  | .unsuccessfulResponse url => "Unsuccessful network response returned for " ++ url
  | .fileWrite p => "Data could not be written to " ++ p
  | .catalogPageCountNotFound => "Could not locate or extract total catalog page count"
  | .bookCategoryNotFound u => "Could not locate the book category breadcrumb on " ++ u
  | .bookTitleNotFound u => "Could not locate the book title on " ++ u
  | .bookRatingNotFound u => "Could not locate the book rating on " ++ u
  | .bookDescriptionNotFound u => "Could not locate the book description on " ++ u
  | .bookProductInfoNotFound u => "Could not locate the book product info on " ++ u
  | .bookImageUrlNotFound u => "Could not locate the book image URL on " ++ u

/-- Decidable equality of `Except` outcomes, used to evaluate the model at
concrete inputs. -/
instance {ε α : Type} [DecidableEq ε] [DecidableEq α] : DecidableEq (Except ε α) := fun x y =>
  match x, y with
  | .ok a, .ok b =>
    if h : a = b then .isTrue (by rw [h]) else .isFalse (fun hh => h (Except.ok.inj hh))
  | .ok _, .error _ => .isFalse (fun hh => Except.noConfusion hh)
  | .error _, .ok _ => .isFalse (fun hh => Except.noConfusion hh)
  | .error e, .error f =>
    if h : e = f then .isTrue (by rw [h]) else .isFalse (fun hh => h (Except.error.inj hh))

/-- JS `try { body } catch (e) { handler }`. -/
def jsTry {α : Type} (body : Except JsError α) (handler : JsError → Except JsError α) :
    Except JsError α :=
  match body with
  | .ok a => .ok a
  | .error e => handler e

/-- Outcome of one asynchronous operation, as reported by
`Promise.allSettled`. -/
inductive Settled (α : Type) where
  | fulfilled (value : α)
  | rejected (reason : JsError)
deriving DecidableEq, Repr

/-- How one task's promise settles. -/
def settle {α : Type} : Except JsError α → Settled α
  | .ok a => .fulfilled a
  | .error e => .rejected e

/-- Model of `Promise.allSettled` over a list of already-determined task outcomes:
its result array lists each task's settlement in input order. -/
def allSettled {α : Type} (tasks : List (Except JsError α)) : List (Settled α) :=
  tasks.map settle

/-! ### String utilities: trimming, splitting and the regular-expression
matches used by the code (implemented by structural recursion on the
character list) -/

/-- The ASCII whitespace removed by `String.prototype.trim`. -/
def isJsSpace (c : Char) : Bool :=
  c == ' ' || c == '\t' || c == '\n' || c == '\r' || c == '\x0c' || c == '\x0b'

/-- Model of `s.trim()`. -/
def jsTrim (s : String) : String :=
  String.mk (((s.data.dropWhile isJsSpace).reverse.dropWhile isJsSpace).reverse)

/-- Split a character list at every occurrence of a separator character
(`splitOn` for a one-character separator). -/
def splitChar (sep : Char) : List Char → List (List Char)
  | [] => [[]]
  | c :: cs =>
    if c = sep then [] :: splitChar sep cs
    else
      match splitChar sep cs with
      | [] => [[c]]
      | g :: gs => (c :: g) :: gs

/-- Split a character list at the first occurrence of `"://"`. -/
def splitScheme : List Char → Option (List Char × List Char)
  | ':' :: '/' :: '/' :: rest => some ([], rest)
  | c :: cs => (splitScheme cs).map (fun pr => (c :: pr.1, pr.2))
  | [] => none

/-- Characters matched by `[a-z0-9]` under the `i` flag. -/
def isAlnumChar (c : Char) : Bool := c.isAlpha || c.isDigit

/-- Model of `url.match(/(?!\.)[a-z0-9]+$/i).at(0)`: the maximal non-empty trailing
run of ASCII alphanumeric characters, or `none` when the string does not end
in such a character (the JS `match` returns `null` there). -/
def trailingAlnumRun (s : String) : Option String :=
  let run := (s.data.reverse.takeWhile isAlnumChar).reverse
  if run.isEmpty then none else some (String.mk run)

/-- Model of `text.match(/\d+$/).at(0)`: the maximal non-empty trailing run of digits,
or `none` when the string does not end in a digit. -/
def matchTrailingDigits (s : String) : Option String :=
  let run := (s.data.reverse.takeWhile Char.isDigit).reverse
  if run.isEmpty then none else some (String.mk run)

/-- Model of `Number(ds)` for a non-empty all-digit string `ds`. -/
def digitsToNat (s : String) : Nat :=
  s.data.foldl (fun n c => n * 10 + (c.toNat - 48)) 0

/-- Model of `cls.match(/[A-Z][a-z]+$/).at(0)`: an ASCII uppercase letter followed by
a non-empty all-lowercase run extending to the end of the string.  The
regex has at most one such match: the lowercase run must reach the end of
the string, so the candidate start position is unique. -/
def matchTrailingCapWord (s : String) : Option String :=
  let low := s.data.reverse.takeWhile Char.isLower
  match s.data.reverse.drop low.length with
  | [] => none
  | c :: _ =>
    if low.isEmpty then none
    else if c.isUpper then some (String.mk (c :: low.reverse)) else none

/-! ### URL and path model

`new URL(rel, base).href` is modelled for the shapes the program uses:
an absolute base of the form `scheme://host` optionally followed by a
`/`-separated path, and a relative reference without scheme, query,
fragment or dot segments.  An invalid base yields `none` (the constructor
throws a `TypeError`). -/

/-- Split an absolute URL into its `scheme://host` part and its path
(empty, or starting with `/`).  `none` for strings not of that shape. -/
def splitUrl (u : String) : Option (String × String) :=
  match splitScheme u.data with
  | none => none
  | some (schemeChars, restChars) =>
    if (splitScheme restChars).isSome then none
    else if String.mk schemeChars = ("") then none
    else
      match splitChar ('/') restChars with
      | [] => none
      | host :: segs =>
        if String.mk host = ("") then none
        else some (String.mk schemeChars ++ "://" ++ String.mk host,
          if segs.isEmpty then ("")
          else "/" ++ String.intercalate ("/") (segs.map String.mk))

/-- The directory part of a non-empty `/`-initial path: everything up to and
including the final `/`. -/
def dirOf (path : String) : String :=
  String.intercalate ("/") (((splitChar ('/') path.data).dropLast).map String.mk) ++ "/"

/-- Model of `new URL(rel, base).href` (restricted as described above). -/
def resolveUrl (rel base : String) : Option String :=
  match splitUrl base with
  | none => none
  | some (auth, path) =>
    if rel.data.head? = some ('/') then some (auth ++ rel)
    else if path = ("") then some (auth ++ "/" ++ rel)
    else some (auth ++ dirOf path ++ rel)

/-- Model of `path.resolve(directory, fileName)` for a relative `fileName`
and a directory without trailing separator: it places `fileName` inside
`directory`.  (Absolutisation against the working directory is not
modelled; it affects neither the file name nor the target directory.) -/
def pathResolve (directory fileName : String) : String :=
  directory ++ "/" ++ fileName

/-! ### Cheerio model

A selection (the result of `$(selector)`) is the list of matched elements
in document order; an element carries its attributes and its text content.
A parsed book detail page is the family of selector results the extractors
read (`selectors.js` fixes the selectors; the HTML-to-selection step is the
oracle part of the model). -/

/-- One matched DOM element: its attribute list and its text content. -/
structure Elem where
  attrs : List (String × String)
  text : String
deriving DecidableEq, Repr

/-- Model of `.eq(i)` on a selection: the one-element selection at index `i`
(negative indices count from the end), or the empty selection when the
index is out of range. -/
def selEq (s : List Elem) (i : Int) : List Elem :=
  let idx := if i < 0 then (s.length : Int) + i else i
  if idx < 0 then []
  else
    match s.get? idx.toNat with
    | some e => [e]
    | none => []

/-- Model of `.text()` on a selection: the concatenated text of all its elements
(the empty string for the empty selection). -/
def selText (s : List Elem) : String :=
  String.join (s.map (fun e => e.text))

/-- Model of `.attr(name)` on a selection: the named attribute of the first element,
`undefined` (`none`) when the selection is empty or the attribute absent. -/
def selAttr (s : List Elem) (name : String) : Option String :=
  match s with
  | [] => none
  | e :: _ => e.attrs.lookup name

/-- JS truthiness of a Cheerio selection object: an object is always truthy,
even when the selection is empty. -/
def selTruthy (_ : List Elem) : Bool := true

/-- The selector results of one parsed book detail page, per
`bookPageSelectors` in `selectors.js`. -/
structure BookPage where
  breadcrumbs : List Elem
  titleElems : List Elem
  ratingElems : List Elem
  descriptionElems : List Elem
  thElems : List Elem
  tdElems : List Elem
  imageElems : List Elem
deriving DecidableEq, Repr

/-- The selector result of the catalog home page the page-count scrape
reads: `$('li.current').text()`. -/
structure CatalogHomePage where
  paginationText : String
deriving DecidableEq, Repr

/-- The selector results of one catalog listing page: the `href` attribute
of each matched book anchor (`none` for an anchor lacking the attribute). -/
structure CatalogListingPage where
  anchors : List (Option String)
deriving DecidableEq, Repr

/-! ### crawler.js -/

/-- What the HTTP layer did for one request: completed an exchange with a
status and body, or failed to complete any exchange (after the retry
budget). -/
inductive HttpOutcome where
  | exchange (status : Nat) (body : String)
  | noExchange
deriving DecidableEq, Repr

/-- Model of `axios.get(url)` under the default `validateStatus`: resolves with the
response for a 2xx status and rejects otherwise (non-2xx statuses and
transport failures both reject). -/
def axiosGet (outcome : HttpOutcome) : Except JsError (Nat × String) :=
  match outcome with
  | .noExchange => .error (.axiosError ("Network Error"))
  | .exchange status body =>
    if 200 ≤ status ∧ status < 300 then .ok (status, body)
    else .error (.axiosError ("Request failed with status code " ++ toString status))

/-- Model of `getHtmlResponse(url)` of `crawler.js`, given the HTTP layer's outcome
for `url`.  The `throw new UnsuccessfulResponseError(url)` sits inside the
same `try` whose `catch` rethrows `new NoResponseError(url)`, so that catch
intercepts it. -/
def getHtmlResponse (url : String) (outcome : HttpOutcome) : Except JsError String :=
  jsTry
    (match axiosGet outcome with
     | .error e => .error e
     | .ok (status, data) =>
       if status = 200 then .ok data
       else .error (.unsuccessfulResponse url))
    (fun _ => .error (.noResponse url))

/-! ### dataExtractors.js

Each extractor takes the parsed page (the Cheerio `$` object, modelled by
`BookPage`).  In the source module, only `extractBookCategory`,
`extractBookTitle` and `extractBookImageUrl` receive the `bookPageUrl`
parameter; the `catch` blocks of `extractBookRating`,
`extractBookDescription` and `extractBookProductInfo` nevertheless mention
`bookPageUrl`, which is unbound there, so evaluating the
`new ...Error(bookPageUrl)` argument in those handlers raises
`ReferenceError: bookPageUrl is not defined` instead of the intended
error. -/

/-- Model of `extractBookCategory($, bookPageUrl)`: selects `.eq(-2)` of the
breadcrumbs, guards it with JS truthiness (a Cheerio object, hence always
truthy) and returns its trimmed text. -/
def extractBookCategory (dollar : BookPage) (bookPageUrl : String) : Except JsError String :=
  let category := selEq dollar.breadcrumbs (-2)
  if !(selTruthy category) then .error (.bookCategoryNotFound bookPageUrl)
  else .ok (jsTrim (selText category))

/-- Model of `extractBookTitle($, bookPageUrl)`. -/
def extractBookTitle (dollar : BookPage) (bookPageUrl : String) : Except JsError String :=
  let titleElementArray := dollar.titleElems
  if titleElementArray.length = 0 then .error (.bookTitleNotFound bookPageUrl)
  else .ok (jsTrim (selText (selEq titleElementArray 0)))

/-- Model of `extractBookRating($)`: reads the class attribute of the first rating
element and matches the trailing capitalised word.  A missing element or
attribute makes `.trim()` of `undefined` throw a `TypeError`; a failed
match makes `.at(0)` of `null` throw; the `catch` then evaluates the
unbound `bookPageUrl` and raises a `ReferenceError`. -/
def extractBookRating (dollar : BookPage) : Except JsError String :=
  jsTry
    (match selAttr (selEq dollar.ratingElems 0) ("class") with
     | none => .error (.typeError ("Cannot read properties of undefined (reading 'trim')"))
     | some cls =>
       match matchTrailingCapWord (jsTrim cls) with
       | none => .error (.typeError ("Cannot read properties of null (reading 'at')"))
       | some r => .ok r)
    (fun _ => .error (.referenceError ("bookPageUrl")))

/-- Model of `extractBookDescription($)`: `.text().trim()` of the description
selection; neither call can throw, so the `catch` (whose handler would
itself raise a `ReferenceError`) is dead. -/
def extractBookDescription (dollar : BookPage) : Except JsError String :=
  jsTry
    (.ok (jsTrim (selText dollar.descriptionElems)))
    (fun _ => .error (.referenceError ("bookPageUrl")))

/-- One `{key, value}` entry of the product information table. -/
structure ProductInfoItem where
  key : String
  value : String
deriving DecidableEq, Repr

/-- Model of `extractBookProductInfo($)`: collects the trimmed texts of all `th` and
all `td` elements and pairs them positionally up to the shorter length.
The body cannot throw, so the `catch` is dead.  The loop indices stay below
both lengths, so the out-of-range default of the model is never taken. -/
def extractBookProductInfo (dollar : BookPage) : Except JsError (List ProductInfoItem) :=
  jsTry
    (let productInfoKeys := dollar.thElems.map (fun e => jsTrim e.text)
     let productInfoData := dollar.tdElems.map (fun e => jsTrim e.text)
     let items :=
       if productInfoKeys.length < productInfoData.length then productInfoKeys.length
       else productInfoData.length
     .ok ((List.range items).map (fun index =>
       { key := (productInfoKeys[index]?).getD ("")
         value := (productInfoData[index]?).getD ("") })))
    (fun _ => .error (.referenceError ("bookPageUrl")))

/-- Model of `extractBookImageUrl($, bookPageUrl)`: resolves the thumbnail `src`
against the book page URL.  A missing attribute (`.trim()` of `undefined`)
or an invalid base URL throws, and here the `catch` has `bookPageUrl` in
scope, so it raises `BookImageURLFoundError`. -/
def extractBookImageUrl (dollar : BookPage) (bookPageUrl : String) : Except JsError String :=
  jsTry
    (match selAttr dollar.imageElems ("src") with
     | none => .error (.typeError ("Cannot read properties of undefined (reading 'trim')"))
     | some src =>
       match resolveUrl (jsTrim src) bookPageUrl with
       | none => .error (.typeError ("Invalid URL"))
       | some href => .ok href)
    (fun _ => .error (.bookImageUrlNotFound bookPageUrl))

/-! ### scrapingUtils.js

The `cheerio.load(await getHtmlResponse(url))` steps are oracle
parameters: a function from URL to either a parse result or the error the
fetch rejected with.  Logging is modelled by returning the list of
`logger.error` / `logger.warn` messages the call emits, in program order
(`logger.info` calls are not modelled; the interleaving of log entries
across concurrently running tasks is not modelled either, logs are
collected per task in input order). -/

/-- One scraped book record (the object literal built by `parseBookInfo`). -/
structure BookRecord where
  url : String
  category : String
  title : String
  rating : String
  description : String
  productInfo : List ProductInfoItem
  imageUrl : String
deriving DecidableEq, Repr

/-- Model of `parseBookInfo($, bookPageUrl)`: assembles the record by running the
six extractors in the object-literal order; any extractor's throw
propagates out uncaught. -/
def parseBookInfo (dollar : BookPage) (bookPageUrl : String) : Except JsError BookRecord :=
  match extractBookCategory dollar bookPageUrl with
  | .error e => .error e
  | .ok category =>
  match extractBookTitle dollar bookPageUrl with
  | .error e => .error e
  | .ok title =>
  match extractBookRating dollar with
  | .error e => .error e
  | .ok rating =>
  match extractBookDescription dollar with
  | .error e => .error e
  | .ok description =>
  match extractBookProductInfo dollar with
  | .error e => .error e
  | .ok productInfo =>
  match extractBookImageUrl dollar bookPageUrl with
  | .error e => .error e
  | .ok imageUrl =>
    .ok { url := bookPageUrl, category := category, title := title, rating := rating,
          description := description, productInfo := productInfo, imageUrl := imageUrl }

/-- Model of `constructCatalogPageUrls(baseUrl)`: the first component is the
function's outcome (`.ok none` models resolving with `null`; an
`Except.error` models a rejection), the second the logged error messages.
A failed trailing-digits match makes `.at(0)` of `null` throw inside the
second `try`, whose `catch` rethrows `CatalogPageCountNotFoundError`; the
URL-building loop runs outside any `try`, so an invalid base URL's
`TypeError` propagates. -/
def constructCatalogPageUrls (home : Except JsError CatalogHomePage) (baseUrl : String) :
    Except JsError (Option (List String)) × List String :=
  match home with
  | .error e => (.ok none, [errMessage e])
  | .ok page =>
    match matchTrailingDigits (jsTrim page.paginationText) with
    | none => (.error .catalogPageCountNotFound, [])
    | some ds =>
      let numOfCatalogPages := digitsToNat ds
      match (List.range numOfCatalogPages).mapM
          (fun i => resolveUrl ("catalogue/page-" ++ toString (i + 1) ++ ".html") baseUrl) with
      | some catalogPageUrls => (.ok (some catalogPageUrls), [])
      | none => (.error (.typeError ("Invalid base URL")), [])

/-- The `reduce` inside `constructBookPageUrlsInCatalogPage`: builds the
book page URLs from the anchors' `href` attributes, counting anchors
without one; a `new URL` failure (invalid base) throws out of the
reduce. -/
def foldAnchors (baseUrl : String) : List (Option String) → List String → Nat →
    Except JsError (List String × Nat)
  | [], urls, errors => .ok (urls, errors)
  | some elementHref :: rest, urls, errors =>
    match resolveUrl ("catalogue/" ++ elementHref) baseUrl with
    | some u => foldAnchors baseUrl rest (urls ++ [u]) errors
    | none => .error (.typeError ("Invalid base URL"))
  | none :: rest, urls, errors => foldAnchors baseUrl rest urls (errors + 1)

/-- Model of `constructBookPageUrlsInCatalogPage(catalogPageUrl, baseUrl)`: on fetch
failure logs and resolves with `[]`; otherwise builds the URLs, logging one
aggregate warning when some anchors lacked an `href`. -/
def constructBookPageUrlsInCatalogPage (catalog : String → Except JsError CatalogListingPage)
    (catalogPageUrl baseUrl : String) : Except JsError (List String) × List String :=
  match catalog catalogPageUrl with
  | .error e => (.ok [], [errMessage e])
  | .ok page =>
    match foldAnchors baseUrl page.anchors [] 0 with
    | .error e => (.error e, [])
    | .ok (urls, errors) =>
      (.ok urls,
       if 0 < errors then
         [toString errors ++ " URL(s) could not be found on " ++ catalogPageUrl ++
          " due to href attribute not found"]
       else [])

/-- One step of filling `Promise.allSettled`'s result array: when task `i`
completes, its settlement is stored at slot `i`, regardless of when the
step runs. -/
def settleStep {α : Type} (tasks : List (Except JsError α))
    (slots : List (Option (Settled α))) (i : Nat) : List (Option (Settled α)) :=
  match tasks.get? i with
  | some t => slots.set i (some (settle t))
  | none => slots

/-- Model of `Promise.allSettled` with an explicit completion schedule: the tasks
complete in the order listed by `order`; the promise resolves (with the
slot array read out in index order) only once every slot is filled, and
`none` models a schedule that never completes some task. -/
def allSettledOrdered {α : Type} (tasks : List (Except JsError α)) (order : List Nat) :
    Option (List (Settled α)) :=
  (order.foldl (settleStep tasks) (tasks.map (fun _ => (none : Option (Settled α))))).mapM id

/-- The `reduce` of `constructAllBookPageUrls`: concatenates each settled
result's `.value`.  For a rejected task `.value` is `undefined`, and
`Array.prototype.concat` appends that `undefined` as one element; since the
URL lists hold strings, the model renders that element as the string
`"undefined"` (every downstream use of a URL, request issuing and message
interpolation, coerces it to exactly that form).  Within the pipeline the
case is unreachable: the per-page tasks only reject on an invalid base
URL, which already makes stage 1 throw whenever it yields any page. -/
def settledConcatValue (accumulator : List String) : Settled (List String) → List String
  | .fulfilled currentValue => accumulator ++ currentValue
  | .rejected _ => accumulator ++ [("undefined")]

/-- Model of `constructAllBookPageUrls(catalogPageUrls, baseUrl)`: fans out one task
per catalog page, waits for all to settle and concatenates the results in
input order. -/
def constructAllBookPageUrls (catalog : String → Except JsError CatalogListingPage)
    (catalogPageUrls : List String) (baseUrl : String) : List String × List String :=
  ((allSettled (catalogPageUrls.map
      (fun url => (constructBookPageUrlsInCatalogPage catalog url baseUrl).1))).foldl
    settledConcatValue [],
   (catalogPageUrls.map
      (fun url => (constructBookPageUrlsInCatalogPage catalog url baseUrl).2)).flatten)

/-- Model of `extractBookInfo(bookPageUrl)`: the `try` covers only the fetch-parse
step, so a fetch failure is logged and the promise resolves with `null`,
while a throw from `parseBookInfo` rejects the promise without logging. -/
def extractBookInfo (fetchParse : String → Except JsError BookPage) (bookPageUrl : String) :
    Except JsError (Option BookRecord) × List String :=
  match fetchParse bookPageUrl with
  | .error error => (.ok none, [errMessage error])
  | .ok dollar =>
    match parseBookInfo dollar bookPageUrl with
    | .error e => (.error e, [])
    | .ok info => (.ok (some info), [])

/-- Model of `result.value` of one settled `extractBookInfo` promise, as tested by
the truthiness check in the reduce: for a rejected promise the property is
`undefined`, which is falsy exactly like the `null` of a fulfilled
fetch-failure, so both collapse to `none`. -/
def settledRecordValue : Settled (Option BookRecord) → Option BookRecord
  | .fulfilled v => v
  | .rejected _ => none

/-- Model of `extractAllBookInfo(bookPageUrls)`: fans out one `extractBookInfo` task
per URL, waits for all to settle, and pushes each truthy `result.value`.
The function itself always resolves: rejections of individual tasks are
absorbed by `Promise.allSettled`. -/
def extractAllBookInfo (fetchParse : String → Except JsError BookPage)
    (bookPageUrls : List String) : List BookRecord × List String :=
  ((allSettled (bookPageUrls.map (fun url => (extractBookInfo fetchParse url).1))).foldl
    (fun bookInfoList result =>
      match settledRecordValue result with
      | some info => bookInfoList ++ [info]
      | none => bookInfoList) [],
   (bookPageUrls.map (fun url => (extractBookInfo fetchParse url).2)).flatten)

/-- The record the pipeline keeps for one URL: the value `extractAllBookInfo`
pushes for that URL's settled task, `none` when the fetch failed (logged
`null`) or the extraction threw (absorbed rejection). -/
def bookRecordOf (fetchParse : String → Except JsError BookPage) (url : String) :
    Option BookRecord :=
  settledRecordValue (settle (extractBookInfo fetchParse url).1)

/-- The error messages `extractBookInfo` logs for one URL. -/
def bookLogsOf (fetchParse : String → Except JsError BookPage) (url : String) : List String :=
  (extractBookInfo fetchParse url).2

/-- Model of the `{url, identifier}` asset descriptor. -/
structure ImageDatum where
  url : String
  identifier : String
deriving DecidableEq, Repr

/-- Model of `downloadBookImages(imageData, dataDirectory)`: derives each asset's
file name as `{identifier}.{extension}` with the extension parsed from the
trailing alphanumeric run of the URL, and hands `(assetUrl, filePath)` to
`downloadAsset`.  The model stops at that boundary and returns the list of
download jobs; a URL with no trailing alphanumeric run makes `.at(0)` of
`null` throw out of the `map` callback, rejecting the whole call. -/
def downloadBookImages (imageData : List ImageDatum) (dataDirectory : String) :
    Except JsError (List (String × String)) :=
  match imageData with
  | [] => .ok []
  | imageDatum :: rest =>
    match trailingAlnumRun imageDatum.url with
    | none => .error (.typeError ("Cannot read properties of null (reading 'at')"))
    | some imageExtension =>
      let imageName := imageDatum.identifier ++ "." ++ imageExtension
      let imageFilePath := pathResolve dataDirectory imageName
      match downloadBookImages rest dataDirectory with
      | .error e => .error e
      | .ok jobs => .ok ((imageDatum.url, imageFilePath) :: jobs)

/-! ### Top-level entry module (index)

The run environment packages the oracle outcomes of the three fetch-parse
families and of the JSON write.  Only error/warn log messages are
collected. -/

/-- Outcomes of the external effects of one run. -/
structure RunEnv where
  home : Except JsError CatalogHomePage
  catalog : String → Except JsError CatalogListingPage
  book : String → Except JsError BookPage
  writeOk : Bool

/-- Model of `executeBookScrapingJob(baseUrl, outputFilePath)`: stages 1-3 in strict
sequence, then the guarded JSON write.  `constructCatalogPageUrls` resolving
with `null` makes the following `catalogPageUrls.length` throw a
`TypeError`; a stage-1 rejection propagates; stages 2 and 3 always
resolve.  The write failure is caught and logged, non-fatal. -/
def executeBookScrapingJob (env : RunEnv) (baseUrl outputFilePath : String) :
    Except JsError (List BookRecord) × List String :=
  match constructCatalogPageUrls env.home baseUrl with
  | (.error e, logs1) => (.error e, logs1)
  | (.ok none, logs1) =>
    (.error (.typeError ("Cannot read properties of null (reading 'length')")), logs1)
  | (.ok (some catalogPageUrls), logs1) =>
    let (bookPageUrls, logs2) := constructAllBookPageUrls env.catalog catalogPageUrls baseUrl
    let (bookData, logs3) := extractAllBookInfo env.book bookPageUrls
    let logs4 := if env.writeOk then [] else [errMessage (.fileWrite outputFilePath)]
    (.ok bookData, logs1 ++ logs2 ++ logs3 ++ logs4)

/-- Model of `bookData.productInfo.find((item) => item.key === "UPC")`. -/
def findUpc (productInfo : List ProductInfoItem) : Option ProductInfoItem :=
  productInfo.find? (fun item => item.key == "UPC")

/-- Model of `downloadAssets(bookData, dataDirectory)`: derives the asset
descriptors and calls `downloadBookImages`.  Called with `undefined` book
data, the `bookData.map` member access throws a `TypeError`; a record whose
attribute table has no `"UPC"` entry makes the `.value` access throw.  The
model returns the derived download jobs; the per-download settle/tally
loop is filesystem I/O outside the model. -/
def downloadAssets (bookData : Option (List BookRecord)) (dataDirectory : String) :
    Except JsError (List (String × String)) :=
  match bookData with
  | none => .error (.typeError ("Cannot read properties of undefined (reading 'map')"))
  | some records =>
    match records.mapM (fun datum =>
        match findUpc datum.productInfo with
        | none =>
          Except.error (JsError.typeError ("Cannot read properties of undefined (reading 'value')"))
        | some item => Except.ok { url := datum.imageUrl, identifier := item.value : ImageDatum }) with
    | .error e => .error e
    | .ok imageData => downloadBookImages imageData dataDirectory

/-- The hardcoded site root of the entry module. -/
def BASE_URL : String := "http://books.toscrape.com"

/-- Observable outcome of one whole run. -/
structure RunOutcome where
  downloadAssetsInvoked : Bool
  uncaughtError : Option JsError
  errorLogs : List String
deriving DecidableEq, Repr

/-- The top-level statements of the entry module: the scraping job inside
`try`/`catch` (a rejection is logged there), followed unconditionally by
`await downloadAssets(bookData, ...)` - the call sits after the
`try`/`catch`, so it runs on the failure path too, with `bookData` still
`undefined`; an error thrown out of it is uncaught and crashes the run. -/
def mainRun (env : RunEnv) (dataDir : String) : RunOutcome :=
  match executeBookScrapingJob env BASE_URL (dataDir ++ "/book-data.json") with
  | (.error e, logs) =>
    { downloadAssetsInvoked := true
      uncaughtError :=
        match downloadAssets none (dataDir ++ "/assets") with
        | .error e2 => some e2
        | .ok _ => none
      errorLogs := logs ++ [errMessage e] }
  | (.ok bookData, logs) =>
    { downloadAssetsInvoked := true
      uncaughtError :=
        match downloadAssets (some bookData) (dataDir ++ "/assets") with
        | .error e2 => some e2
        | .ok _ => none
      errorLogs := logs }

/-! ### Concrete sample data used by the theorems below -/

/-- A fully well-formed parsed book detail page. -/
def samplePage : BookPage :=
  { breadcrumbs := [{ attrs := [], text := "Home" }, { attrs := [], text := "Poetry" },
                    { attrs := [], text := "X" }]
    titleElems := [{ attrs := [], text := "T1" }]
    ratingElems := [{ attrs := [("class", "star-rating Three")], text := "" }]
    descriptionElems := [{ attrs := [], text := "D" }]
    thElems := [{ attrs := [], text := "UPC" }]
    tdElems := [{ attrs := [], text := "abc123" }]
    imageElems := [{ attrs := [("src", "img.jpg")], text := "" }] }

/-- The record `parseBookInfo` builds from `samplePage` at a given page
URL of the form `http://s/...`. -/
def sampleRecord (url : String) : BookRecord :=
  { url := url, category := "Poetry", title := "T1", rating := "Three",
    description := "D", productInfo := [{ key := "UPC", value := "abc123" }],
    imageUrl := "http://s/img.jpg" }

/-- A parsed page with no rating element at all. -/
def noRatingPage : BookPage := { samplePage with ratingElems := [] }

/-- A parsed page whose rating element's class attribute has no trailing
capitalised word. -/
def noCapRatingPage : BookPage :=
  { samplePage with ratingElems := [{ attrs := [("class", "star-rating")], text := "" }] }

/-- A parsed page with no breadcrumb elements. -/
def noCrumbsPage : BookPage := { samplePage with breadcrumbs := [] }

/-- A run environment whose home page loads but whose pagination indicator
text contains no trailing integer. -/
def envPageCountMissing : RunEnv :=
  { home := .ok { paginationText := "Page" }
    catalog := fun _ => .error (.noResponse ("unused"))
    book := fun _ => .error (.noResponse ("unused"))
    writeOk := true }

/-! ### C1 -/

/-- C1: the claim says a stage-1/2/3 throw is caught at the top level,
logged, and the run terminates without invoking `downloadAssets`.  The
catch-and-log part holds, but `await downloadAssets(bookData, ...)` stands
after the top-level `try`/`catch` and runs unconditionally: every run
invokes it, and on the failure path it receives the still-undefined
`bookData` and crashes with an uncaught `TypeError`.  Witnessed on the run
where stage 1 throws `CatalogPageCountNotFoundError`. -/
theorem mainRun_invokes_downloadAssets_after_fatal_stage_error :
    (∀ env dataDir, (mainRun env dataDir).downloadAssetsInvoked = true)
    ∧ mainRun envPageCountMissing ("data") =
      { downloadAssetsInvoked := true
        uncaughtError := some (.typeError ("Cannot read properties of undefined (reading 'map')"))
        errorLogs := [errMessage .catalogPageCountNotFound] } := by
  constructor
  · intro env dataDir
    unfold mainRun
    rcases h : executeBookScrapingJob env BASE_URL (dataDir ++ "/book-data.json") with ⟨res, logs⟩
    cases res <;> rfl
  · decide

/-! ### C2 -/

/-- C2: the claim says a completed exchange with non-200 status makes
`getHtmlResponse` raise `UnsuccessfulResponseError` at its boundary,
distinct from `NoResponseError`.  In the source the
`throw new UnsuccessfulResponseError(url)` sits inside the `try` whose
`catch` rethrows `new NoResponseError(url)`, so the boundary error for a
404 (and even for a completed 204) is `NoResponseError`; only the
status-200 branch of the claim holds. -/
theorem getHtmlResponse_boundary_error_is_noResponse :
    getHtmlResponse ("http://h/p") (.exchange 404 ("<html>")) =
      .error (.noResponse ("http://h/p"))
    ∧ getHtmlResponse ("http://h/p") (.exchange 404 ("<html>")) ≠
      .error (.unsuccessfulResponse ("http://h/p"))
    ∧ getHtmlResponse ("http://h/p") (.exchange 204 ("<html>")) =
      .error (.noResponse ("http://h/p"))
    ∧ getHtmlResponse ("http://h/p") (.exchange 200 ("<html>")) = .ok ("<html>")
    ∧ getHtmlResponse ("http://h/p") .noExchange = .error (.noResponse ("http://h/p")) := by
  refine ⟨by decide, by decide, by decide, by decide, by decide⟩

/-! ### C3 -/

/-- C3: the claim's success half holds: with class attribute
`"star-rating Three"` the extractor returns `"Three"`.  The failure half
does not: with the rating element, attribute, or trailing capitalised word
absent, the `catch` block evaluates `bookPageUrl`, which is not in scope in
`extractBookRating`, so the call raises
`ReferenceError: bookPageUrl is not defined`, never
`BookRatingNotFoundError`. -/
theorem extractBookRating_failure_is_referenceError :
    extractBookRating samplePage = .ok ("Three")
    ∧ extractBookRating noRatingPage = .error (.referenceError ("bookPageUrl"))
    ∧ extractBookRating noCapRatingPage = .error (.referenceError ("bookPageUrl"))
    ∧ ∀ url, extractBookRating noRatingPage ≠ .error (.bookRatingNotFound url) := by
  refine ⟨by decide, by decide, by decide, ?_⟩
  intro url h
  rw [(by decide : extractBookRating noRatingPage =
    Except.error (JsError.referenceError ("bookPageUrl")))] at h
  simp at h

/-! ### C4 -/

/-- C4: the claim's present-breadcrumbs half holds (trimmed text of the
second-to-last breadcrumb), but the absent-breadcrumbs half does not: the
guard `if (!$category)` tests the truthiness of a Cheerio object, which is
always truthy, so the `BookCategoryNotFoundError` branch is dead; with the
breadcrumb set absent, `.eq(-2)` is the empty selection and the extractor
returns its text, the empty string.  The error is unreachable for every
input. -/
theorem extractBookCategory_never_raises_categoryNotFound :
    extractBookCategory samplePage ("http://s/p1.html") = .ok ("Poetry")
    ∧ extractBookCategory noCrumbsPage ("http://s/p1.html") = .ok ("")
    ∧ ∀ dollar url e, extractBookCategory dollar url ≠ Except.error e := by
  refine ⟨by decide, by decide, ?_⟩
  intro dollar url e h
  simp [extractBookCategory, selTruthy] at h

/-! ### Aggregation lemmas for `extractAllBookInfo` -/

/-- The push-if-truthy reduce of `extractAllBookInfo` collects exactly the
truthy settled values, in order. -/
theorem foldl_collectRecords (l : List (Settled (Option BookRecord))) (acc : List BookRecord) :
    l.foldl (fun bookInfoList result =>
      match settledRecordValue result with
      | some info => bookInfoList ++ [info]
      | none => bookInfoList) acc
    = acc ++ l.filterMap settledRecordValue := by
  induction l generalizing acc with
  | nil => simp
  | cons hd tl ih =>
    cases hs : settledRecordValue hd <;>
      simp [List.foldl_cons, List.filterMap_cons, hs, ih, List.append_assoc]

/-- Characterisation of `extractAllBookInfo`: it is a total function of the
per-URL outcomes - one kept record per URL whose settled task has a truthy
value, and the per-URL log lists concatenated in input order. -/
theorem extractAllBookInfo_eq (fetchParse : String → Except JsError BookPage)
    (bookPageUrls : List String) :
    extractAllBookInfo fetchParse bookPageUrls
      = (bookPageUrls.filterMap (bookRecordOf fetchParse),
         (bookPageUrls.map (bookLogsOf fetchParse)).flatten) := by
  unfold extractAllBookInfo
  rw [foldl_collectRecords]
  simp only [allSettled, List.map_map, List.filterMap_map, List.nil_append]
  rfl

/-! ### C5 -/

/-- C5: `extractAllBookInfo` keeps exactly one record per URL whose fetch
and extraction succeeded and none for the others; a fetch failure is logged
(the function still resolves, nothing is thrown to the caller); in
particular, for 3 URLs whose 2nd fetch fails it returns exactly the 2
records of the other URLs plus the one logged failure message. -/
theorem extractAllBookInfo_drops_failed_fetches
    (fetchParse : String → Except JsError BookPage) :
    (∀ bookPageUrls,
      extractAllBookInfo fetchParse bookPageUrls
        = (bookPageUrls.filterMap (bookRecordOf fetchParse),
           (bookPageUrls.map (bookLogsOf fetchParse)).flatten))
    ∧ (∀ url dollar info, fetchParse url = .ok dollar → parseBookInfo dollar url = .ok info →
        bookRecordOf fetchParse url = some info ∧ bookLogsOf fetchParse url = [])
    ∧ (∀ url e, fetchParse url = .error e →
        bookRecordOf fetchParse url = none ∧ bookLogsOf fetchParse url = [errMessage e])
    ∧ ∀ u1 u2 u3 p1 p3 e r1 r3,
        fetchParse u1 = .ok p1 → fetchParse u2 = .error e → fetchParse u3 = .ok p3 →
        parseBookInfo p1 u1 = .ok r1 → parseBookInfo p3 u3 = .ok r3 →
        extractAllBookInfo fetchParse [u1, u2, u3] = ([r1, r3], [errMessage e]) := by
  refine ⟨extractAllBookInfo_eq fetchParse, ?_, ?_, ?_⟩
  · intro url dollar info hf hp
    constructor <;> simp [bookRecordOf, bookLogsOf, extractBookInfo, hf, hp, settle,
      settledRecordValue]
  · intro url e hf
    constructor <;> simp [bookRecordOf, bookLogsOf, extractBookInfo, hf, settle,
      settledRecordValue]
  · intro u1 u2 u3 p1 p3 e r1 r3 h1 h2 h3 hp1 hp3
    rw [extractAllBookInfo_eq]
    simp [bookRecordOf, bookLogsOf, extractBookInfo, h1, h2, h3, hp1, hp3, settle,
      settledRecordValue]

/-- The fetch-parse oracle used by the concrete witnesses: one good page,
one URL whose fetch fails, and good pages elsewhere. -/
def sampleFetch : String → Except JsError BookPage := fun url =>
  if url = "http://s/p1.html" then .ok samplePage
  else if url = "http://s/p2.html" then .error (.noResponse ("http://s/p2.html"))
  else .ok samplePage

/-- Witness for C5 at a concrete input. -/
theorem extractAllBookInfo_drops_failed_fetches_witness :
    extractAllBookInfo sampleFetch ["http://s/p1.html", "http://s/p2.html", "http://s/p3.html"]
      = ([sampleRecord ("http://s/p1.html"), sampleRecord ("http://s/p3.html")],
         [errMessage (.noResponse ("http://s/p2.html"))]) :=
  (extractAllBookInfo_drops_failed_fetches sampleFetch).2.2.2
    ("http://s/p1.html") ("http://s/p2.html") ("http://s/p3.html")
    samplePage samplePage (.noResponse ("http://s/p2.html"))
    (sampleRecord ("http://s/p1.html")) (sampleRecord ("http://s/p3.html"))
    (by decide) (by decide) (by decide) (by decide) (by decide)

/-! ### C10 -/

/-- C10: `extractAllBookInfo` itself always resolves (it is a total
function of the oracle outcomes); when a field extractor throws during
record assembly for one item, the rejected task is absorbed by the settled
collection: the item contributes neither a record nor a log entry, and the
records and logs of the surrounding items are exactly those of the list
without it. -/
theorem extractAllBookInfo_absorbs_extractor_throw
    (fetchParse : String → Except JsError BookPage)
    (pre post : List String) (url : String) (dollar : BookPage) (e : JsError)
    (hf : fetchParse url = .ok dollar) (hp : parseBookInfo dollar url = .error e) :
    extractAllBookInfo fetchParse (pre ++ url :: post)
      = ((extractAllBookInfo fetchParse pre).1 ++ (extractAllBookInfo fetchParse post).1,
         (extractAllBookInfo fetchParse pre).2 ++ (extractAllBookInfo fetchParse post).2) := by
  have hrec : bookRecordOf fetchParse url = none := by
    simp [bookRecordOf, extractBookInfo, hf, hp, settle, settledRecordValue]
  have hlog : bookLogsOf fetchParse url = [] := by
    simp [bookLogsOf, extractBookInfo, hf, hp]
  rw [extractAllBookInfo_eq, extractAllBookInfo_eq, extractAllBookInfo_eq]
  simp [List.filterMap_append, List.filterMap_cons, List.map_append, List.flatten_append,
    hrec, hlog]

/-- A fetch-parse oracle with one URL whose page parses but whose rating
extractor throws (no rating element), good pages elsewhere. -/
def sampleFetchBad : String → Except JsError BookPage := fun url =>
  if url = "http://s/bad.html" then .ok noRatingPage else .ok samplePage

/-- Witness for C10 at a concrete input. -/
theorem extractAllBookInfo_absorbs_extractor_throw_witness :
    extractAllBookInfo sampleFetchBad ["http://s/p1.html", "http://s/bad.html"]
      = ([sampleRecord ("http://s/p1.html")], []) :=
  (extractAllBookInfo_absorbs_extractor_throw sampleFetchBad
    ["http://s/p1.html"] [] ("http://s/bad.html") noRatingPage
    (.referenceError ("bookPageUrl")) (by decide) (by decide)).trans (by decide)

/-! ### C6 -/

/-- Pointwise success propagates through `mapM` over `Option`. -/
theorem mapM_option_eq_map {α β : Type} (f : α → Option β) (g : α → β) :
    ∀ l : List α, (∀ a ∈ l, f a = some (g a)) → l.mapM f = some (l.map g) := by
  intro l
  induction l with
  | nil => intro _; rfl
  | cons a as ih =>
    intro h
    rw [List.mapM_cons, h a (List.mem_cons_self a as),
      ih (fun b hb => h b (List.mem_cons_of_mem a hb))]
    rfl

/-- Resolution against a path-less base URL prepends the base and a slash. -/
theorem resolveUrl_rootBase (baseUrl rel : String)
    (hbase : splitUrl baseUrl = some (baseUrl, ""))
    (hrel : rel.data.head? ≠ some ('/')) :
    resolveUrl rel baseUrl = some (baseUrl ++ "/" ++ rel) := by
  unfold resolveUrl
  rw [hbase]
  simp [hrel]

/-- The spec's template for the catalog page URLs: N URLs, page-indexed
1..N, the i-th being `{baseUrl}/catalogue/page-{i}.html`. -/
def specCatalogPageUrls (baseUrl : String) (n : Nat) : List String :=
  (List.range n).map (fun i => baseUrl ++ "/catalogue/page-" ++ toString (i + 1) ++ ".html")

/-- Reassociation bridging resolution output and the spec template. -/
theorem catalogTemplate_shift (b t : String) :
    b ++ "/" ++ ("catalogue/page-" ++ t ++ ".html")
      = b ++ "/catalogue/page-" ++ t ++ ".html" := by
  simp only [String.append_assoc]
  rfl

/-- C6: with the home page loaded and the pagination indicator ending in
the digits of N, `constructCatalogPageUrls` resolves with exactly the
spec's template list for a path-less base URL: N URLs, page-indexed 1..N in
order, the i-th being `{baseUrl}/catalogue/page-{i}.html`. -/
theorem constructCatalogPageUrls_template (home : CatalogHomePage) (baseUrl ds : String) (n : Nat)
    (hbase : splitUrl baseUrl = some (baseUrl, ""))
    (hmatch : matchTrailingDigits (jsTrim home.paginationText) = some ds)
    (hn : digitsToNat ds = n) (_hpos : 1 ≤ n) :
    constructCatalogPageUrls (.ok home) baseUrl = (.ok (some (specCatalogPageUrls baseUrl n)), [])
    ∧ (specCatalogPageUrls baseUrl n).length = n
    ∧ ∀ i, i < n → (specCatalogPageUrls baseUrl n)[i]?
        = some (baseUrl ++ "/catalogue/page-" ++ toString (i + 1) ++ ".html") := by
  refine ⟨?_, by simp [specCatalogPageUrls], ?_⟩
  · unfold constructCatalogPageUrls
    dsimp only
    rw [hmatch]
    dsimp only
    rw [hn]
    rw [mapM_option_eq_map _
      (fun i => baseUrl ++ "/" ++ ("catalogue/page-" ++ toString (i + 1) ++ ".html"))
      (List.range n)
      (fun i _ => resolveUrl_rootBase baseUrl _ hbase (by
        rw [String.data_append, String.data_append]
        intro hcontr
        simp [show ("catalogue/page-").data = 'c' :: ("atalogue/page-").data from rfl] at hcontr))]
    simp only [specCatalogPageUrls, catalogTemplate_shift]
  · intro i hi
    simp [specCatalogPageUrls, List.getElem?_map, List.getElem?_range, hi]

/-- Witness for C6 at a concrete input. -/
theorem constructCatalogPageUrls_template_witness :
    constructCatalogPageUrls (.ok { paginationText := "Page 1 of 3" }) BASE_URL
      = (.ok (some ["http://books.toscrape.com/catalogue/page-1.html",
                    "http://books.toscrape.com/catalogue/page-2.html",
                    "http://books.toscrape.com/catalogue/page-3.html"]), [])
    ∧ (specCatalogPageUrls BASE_URL 3).length = 3 := by
  obtain ⟨h1, h2, h3⟩ := constructCatalogPageUrls_template
    { paginationText := "Page 1 of 3" } BASE_URL ("3") 3
    (by decide) (by decide) (by decide) (by decide)
  exact ⟨h1.trans (by decide), h2⟩

/-! ### C7 -/

/-- Writing one completed task into its slot preserves the array length. -/
theorem settleStep_length {α : Type} (tasks : List (Except JsError α))
    (slots : List (Option (Settled α))) (i : Nat) :
    (settleStep tasks slots i).length = slots.length := by
  unfold settleStep
  cases tasks.get? i <;> simp

/-- A whole completion schedule preserves the array length. -/
theorem foldl_settleStep_length {α : Type} (tasks : List (Except JsError α)) (order : List Nat) :
    ∀ slots, (order.foldl (settleStep tasks) slots).length = slots.length := by
  induction order with
  | nil => intro slots; rfl
  | cons j rest ih =>
    intro slots
    rw [List.foldl_cons, ih, settleStep_length]

/-- A slot whose task never completes in the schedule is untouched. -/
theorem foldl_settleStep_not_mem {α : Type} (tasks : List (Except JsError α)) (order : List Nat) :
    ∀ slots i, i ∉ order → (order.foldl (settleStep tasks) slots)[i]? = slots[i]? := by
  induction order with
  | nil => intro slots i _; rfl
  | cons j rest ih =>
    intro slots i h
    rw [List.foldl_cons, ih _ _ (fun hm => h (List.mem_cons_of_mem j hm))]
    unfold settleStep
    cases tasks.get? j with
    | none => rfl
    | some t =>
      refine List.getElem?_set_ne (fun e => h ?_)
      rw [e]
      exact List.mem_cons_self i rest

/-- A slot whose task completes somewhere in the schedule holds its
settlement afterwards, wherever in the schedule the completion happened. -/
theorem foldl_settleStep_mem {α : Type} (tasks : List (Except JsError α)) (order : List Nat) :
    ∀ slots i t, slots.length = tasks.length → tasks.get? i = some t → i ∈ order →
      (order.foldl (settleStep tasks) slots)[i]? = some (some (settle t)) := by
  induction order with
  | nil => intro _ _ _ _ _ h; cases h
  | cons j rest ih =>
    intro slots i t hlen ht hmem
    rw [List.foldl_cons]
    by_cases hr : i ∈ rest
    · exact ih _ _ _ ((settleStep_length tasks slots j).trans hlen) ht hr
    · have hij : i = j := by
        rcases List.mem_cons.mp hmem with h | h
        · exact h
        · exact absurd h hr
      subst hij
      rw [foldl_settleStep_not_mem tasks rest _ _ hr]
      unfold settleStep
      rw [ht]
      have hlt : i < slots.length := by
        rw [hlen]
        obtain ⟨hh, -⟩ := List.get?_eq_some.mp ht
        exact hh
      exact List.getElem?_set_self hlt

/-- Running `mapM id` over a list of `some` values succeeds with the list. -/
theorem mapM_id_map_some {β : Type} : ∀ l : List β, (l.map some).mapM id = some l := by
  intro l
  induction l with
  | nil => rfl
  | cons a as ih =>
    rw [List.map_cons, List.mapM_cons, ih]
    rfl

/-- Any schedule that completes every task yields the same settled array,
in task-index order: the collection is independent of completion order. -/
theorem allSettledOrdered_complete {α : Type} (tasks : List (Except JsError α))
    (order : List Nat) (hc : ∀ i, i < tasks.length → i ∈ order) :
    allSettledOrdered tasks order = some (allSettled tasks) := by
  unfold allSettledOrdered
  have hfin : order.foldl (settleStep tasks) (tasks.map (fun _ => none))
      = (allSettled tasks).map some := by
    apply List.ext_getElem?
    intro i
    by_cases hi : i < tasks.length
    · obtain ⟨t, ht⟩ : ∃ t, tasks.get? i = some t := by
        rw [List.get?_eq_getElem?]
        exact ⟨tasks[i], List.getElem?_eq_some_iff.mpr ⟨hi, rfl⟩⟩
      rw [foldl_settleStep_mem tasks order _ i t (by simp) ht (hc i hi)]
      rw [allSettled, List.getElem?_map, List.getElem?_map, ← List.get?_eq_getElem?, ht]
      rfl
    · rw [List.getElem?_eq_none (by
          rw [foldl_settleStep_length, List.length_map]
          omega),
        List.getElem?_eq_none (by simp [allSettled]; omega)]
  rw [hfin]
  exact mapM_id_map_some _

/-- The concat-reduce of `constructAllBookPageUrls` over fulfilled results
is exactly the input-order concatenation. -/
theorem foldl_settledConcat (ls : List (List String)) :
    ∀ acc, (ls.map Settled.fulfilled).foldl settledConcatValue acc = acc ++ ls.flatten := by
  induction ls with
  | nil => intro acc; simp
  | cons hd tl ih =>
    intro acc
    rw [List.map_cons, List.foldl_cons, ih]
    simp [settledConcatValue]

/-- C7: when every per-page task fulfills with that page's item-URL list,
`constructAllBookPageUrls` returns their concatenation in the order of the
input catalog-page sequence, and the settled collection it folds is
independent of the order in which the concurrent per-page fetches
complete: every schedule completing all tasks yields the same array. -/
theorem constructAllBookPageUrls_input_order
    (catalog : String → Except JsError CatalogListingPage)
    (catalogPageUrls : List String) (baseUrl : String) (pageUrls : String → List String)
    (h : ∀ u ∈ catalogPageUrls,
      (constructBookPageUrlsInCatalogPage catalog u baseUrl).1 = .ok (pageUrls u)) :
    (constructAllBookPageUrls catalog catalogPageUrls baseUrl).1
      = (catalogPageUrls.map pageUrls).flatten
    ∧ ∀ order, (∀ i, i < catalogPageUrls.length → i ∈ order) →
        allSettledOrdered (catalogPageUrls.map
          (fun u => (constructBookPageUrlsInCatalogPage catalog u baseUrl).1)) order
        = some (allSettled (catalogPageUrls.map
            (fun u => (constructBookPageUrlsInCatalogPage catalog u baseUrl).1))) := by
  constructor
  · unfold constructAllBookPageUrls
    dsimp only
    rw [allSettled, List.map_map,
      show List.map (settle ∘ fun u => (constructBookPageUrlsInCatalogPage catalog u baseUrl).1)
          catalogPageUrls
        = List.map (Settled.fulfilled ∘ pageUrls) catalogPageUrls from
        List.map_congr_left (fun u hu => by simp [Function.comp, h u hu, settle]),
      ← List.map_map, foldl_settledConcat]
    simp [List.map_map]
  · intro order hc
    exact allSettledOrdered_complete _ order (by simpa using hc)

/-- The catalog listing oracle of the concrete witness: page A with one
anchor, page B with two. -/
def sampleCatalog : String → Except JsError CatalogListingPage := fun url =>
  if url = "http://s/c1" then .ok { anchors := [some ("a1.html")] }
  else .ok { anchors := [some ("a2.html"), some ("a3.html")] }

/-- The per-page item URLs of the concrete witness. -/
def samplePageUrls : String → List String := fun url =>
  if url = "http://s/c1" then ["http://s/catalogue/a1.html"]
  else ["http://s/catalogue/a2.html", "http://s/catalogue/a3.html"]

/-- Witness for C7 at a concrete input, with the reversed completion
schedule `[1, 0]` as the completing-all-tasks schedule. -/
theorem constructAllBookPageUrls_input_order_witness :
    (constructAllBookPageUrls sampleCatalog ["http://s/c1", "http://s/c2"] ("http://s")).1
      = ["http://s/catalogue/a1.html", "http://s/catalogue/a2.html", "http://s/catalogue/a3.html"]
    ∧ allSettledOrdered (["http://s/c1", "http://s/c2"].map
        (fun u => (constructBookPageUrlsInCatalogPage sampleCatalog u ("http://s")).1)) [1, 0]
      = some (allSettled (["http://s/c1", "http://s/c2"].map
          (fun u => (constructBookPageUrlsInCatalogPage sampleCatalog u ("http://s")).1))) := by
  obtain ⟨h1, h2⟩ := constructAllBookPageUrls_input_order sampleCatalog
    ["http://s/c1", "http://s/c2"] ("http://s") samplePageUrls (by decide)
  exact ⟨h1.trans (by decide), h2 [1, 0] (by decide)⟩

/-! ### C8 -/

/-- C8: `extractBookProductInfo` returns exactly
`min(#keys, #values)` `{key, value}` pairs, paired positionally (trimmed
texts in document order); unmatched trailing keys or values are silently
discarded. -/
theorem extractBookProductInfo_pairs (dollar : BookPage) :
    (extractBookProductInfo dollar).map List.length
      = .ok (min dollar.thElems.length dollar.tdElems.length)
    ∧ ∀ (i : Nat) (ki vi : Elem), dollar.thElems[i]? = some ki → dollar.tdElems[i]? = some vi →
        (extractBookProductInfo dollar).map (fun l => l[i]?)
          = .ok (some ({ key := jsTrim ki.text, value := jsTrim vi.text } : ProductInfoItem)) := by
  have hitems : (if (dollar.thElems.map (fun e => jsTrim e.text)).length
        < (dollar.tdElems.map (fun e => jsTrim e.text)).length
      then (dollar.thElems.map (fun e => jsTrim e.text)).length
      else (dollar.tdElems.map (fun e => jsTrim e.text)).length)
      = min dollar.thElems.length dollar.tdElems.length := by
    simp only [List.length_map]
    split <;> omega
  have hok : extractBookProductInfo dollar
      = .ok ((List.range (min dollar.thElems.length dollar.tdElems.length)).map
          (fun index =>
            ({ key := ((dollar.thElems.map (fun e => jsTrim e.text))[index]?).getD ("")
               value := ((dollar.tdElems.map (fun e => jsTrim e.text))[index]?).getD ("") }
             : ProductInfoItem))) := by
    unfold extractBookProductInfo jsTry
    dsimp only
    rw [hitems]
  constructor
  · rw [hok]
    simp [Except.map]
  · intro i ki vi hk hv
    obtain ⟨hik, -⟩ := List.getElem?_eq_some_iff.mp hk
    obtain ⟨hiv, -⟩ := List.getElem?_eq_some_iff.mp hv
    rw [hok]
    simp only [Except.map]
    rw [List.getElem?_map, List.getElem?_range (by omega : i < min dollar.thElems.length
      dollar.tdElems.length)]
    simp [List.getElem?_map, hk, hv]

/-- A parsed page with three key cells and two value cells. -/
def threeTwoPage : BookPage :=
  { samplePage with
    thElems := [{ attrs := [], text := "K1" }, { attrs := [], text := "K2" },
                { attrs := [], text := "K3" }]
    tdElems := [{ attrs := [], text := "V1" }, { attrs := [], text := "V2" }] }

/-- Witness for C8 at a concrete input: 3 keys and 2 values give exactly 2
pairs, the 3rd key discarded. -/
theorem extractBookProductInfo_pairs_witness :
    (extractBookProductInfo threeTwoPage).map List.length = .ok 2
    ∧ (extractBookProductInfo threeTwoPage).map (fun l => l[1]?)
      = .ok (some { key := "K2", value := "V2" }) :=
  ⟨((extractBookProductInfo_pairs threeTwoPage).1).trans (by decide),
   ((extractBookProductInfo_pairs threeTwoPage).2 1 { attrs := [], text := "K2" }
      { attrs := [], text := "V2" } (by decide) (by decide)).trans (by decide)⟩

/-! ### C9 -/

/-- The `takeWhile` of an all-true list followed by a false head takes exactly
the first list. -/
theorem takeWhile_append_all (p : Char → Bool) :
    ∀ (l1 l2 : List Char), (∀ c ∈ l1, p c = true) →
      (∀ c, l2.head? = some c → p c = false) → (l1 ++ l2).takeWhile p = l1 := by
  intro l1
  induction l1 with
  | nil =>
    intro l2 _ h2
    cases l2 with
    | nil => rfl
    | cons c cs => simp [List.takeWhile_cons, h2 c rfl]
  | cons a as ih =>
    intro l2 h1 h2
    rw [List.cons_append, List.takeWhile_cons, h1 a (List.mem_cons_self a as)]
    simp [ih l2 (fun b hb => h1 b (List.mem_cons_of_mem a hb)) h2]

/-- The trailing-alphanumeric-run match picks out exactly a non-empty
all-alphanumeric suffix preceded by nothing or a non-alphanumeric
character. -/
theorem trailingAlnumRun_append (p ext : String) (hne : ext.data ≠ [])
    (hall : ext.data.all isAlnumChar = true)
    (hlast : p.data.getLast?.all (fun c => !isAlnumChar c) = true) :
    trailingAlnumRun (p ++ ext) = some ext := by
  unfold trailingAlnumRun
  rw [String.data_append, List.reverse_append]
  rw [takeWhile_append_all isAlnumChar ext.data.reverse p.data.reverse
    (fun c hc => List.all_eq_true.mp hall c (List.mem_reverse.mp hc))
    (fun c hc => by
      rw [List.head?_reverse] at hc
      rw [hc] at hlast
      simpa using hlast)]
  rw [List.reverse_reverse]
  simp [List.isEmpty_iff, hne]

/-- C9: for an asset descriptor whose URL is anything followed by a
non-empty trailing alphanumeric run `ext` (the character before the run,
if any, not alphanumeric), `downloadBookImages` derives the destination
file path by placing `{identifier}.{ext}` inside the target directory. -/
theorem downloadBookImages_file_names (p ext ident dir : String)
    (hne : ext.data ≠ []) (hall : ext.data.all isAlnumChar = true)
    (hlast : p.data.getLast?.all (fun c => !isAlnumChar c) = true) :
    downloadBookImages [{ url := p ++ ext, identifier := ident }] dir
      = .ok [(p ++ ext, dir ++ "/" ++ (ident ++ "." ++ ext))] := by
  have h := trailingAlnumRun_append p ext hne hall hlast
  simp [downloadBookImages, h, pathResolve]

/-- Witness for C9 at a concrete input: a URL ending in `.jpg` and
identifier `abc123` yield the file `abc123.jpg` in the target directory. -/
theorem downloadBookImages_file_names_witness :
    downloadBookImages [{ url := ("http://x/y." ++ "jpg"), identifier := "abc123" }]
      ("data/assets")
      = .ok [(("http://x/y." ++ "jpg"), "data/assets/abc123.jpg")] :=
  (downloadBookImages_file_names ("http://x/y.") ("jpg") ("abc123") ("data/assets")
    (by decide) (by decide) (by decide)).trans (by decide)
